import Mathlib

/-!
# Verification of the version-mcp server

A shallow embedding of `version_mcp/server.py`: the four registry lookup
functions (PyPI, npm, crates.io, Go module proxy), the tool list, the
text-formatting step and the `call_tool` dispatch boundary, together with
theorems settling the specification claims.

Conventions of the embedding:
* Python exceptions are modelled by `Exc`; fallible code runs in `Except Exc`.
* An HTTP response is a status code plus an already-parsed body; a transport
  failure of the client is the `Except.error` side of `HttpResult` and raises
  `Exc.httpError` when the response is awaited.
* JSON objects are modelled per registry as structures whose optional keys are
  `Option` fields; `d[k]` on a missing key raises `Exc.keyError` and
  `d.get(k, v)` is `Option.getD`.
* Python dicts preserve insertion order, so a mapping whose key order matters
  is an association list.
* Python's stable `sorted(key, reverse=True)` is `List.insertionSort` with the
  flipped key comparison, which is stable in the same way; a stable descending
  sort is uniquely determined by its comparison, so the two agree. Python
  compares strings lexicographically by code point, which is the
  lexicographic order on the `String.data` character lists. Python's
  slice `l[-n:]` is `pyLastSlice`, `l[::-1]` is `List.reverse`.
-/

namespace VersionMcp

/-- Python exceptions that the server code can raise: `httpx.HTTPError`
(transport failures and `raise_for_status`), `KeyError` (missing dict key)
and `TypeError` (e.g. `str.join` over a `None`). The payload is the
`str(e)` rendering used by the top-level handler. -/
inductive Exc where
  | httpError (details : String)
  | keyError (details : String)
  | typeError (details : String)
deriving DecidableEq, Repr

/-- The `str(e)` text of an exception, as interpolated by `call_tool`. -/
def Exc.details : Exc → String
  | .httpError d => d
  | .keyError d => d
  | .typeError d => d

/-- An HTTP response: status code and parsed body. -/
structure HttpResp (β : Type) where
  status : Nat
  body : β
deriving DecidableEq, Repr

/-- Outcome of `client.get(...)`: either a response or a transport failure
(DNS, connection, timeout) carrying its message. -/
abbrev HttpResult (β : Type) := Except String (HttpResp β)

/-- Awaiting `client.get(...)`: a transport failure surfaces as a raised
`httpx.HTTPError`. -/
def getResp {β : Type} : HttpResult β → Except Exc (HttpResp β)
  | .ok r => .ok r
  | .error m => .error (.httpError m)

/-- `response.raise_for_status()`: raises `httpx.HTTPStatusError` (a subclass
of `httpx.HTTPError`) unless the status is a 2xx success. -/
def raise_for_status {β : Type} (r : HttpResp β) : Except Exc Unit :=
  if 200 ≤ r.status ∧ r.status < 300 then .ok ()
  else .error (.httpError ("status " ++ toString r.status))

/-- `d[k]` on a Python dict: `KeyError` (whose `str` is the repr of the key)
when absent. -/
def pyIndexD {α : Type} (d : List (String × α)) (k : String) : Except Exc α :=
  match d.lookup k with
  | some v => .ok v
  | none => .error (.keyError ("'" ++ k ++ "'"))

/-- Access to a required key of a modelled JSON object (an `Option` field):
`KeyError` when the key is absent. -/
def pyKey {α : Type} (o : Option α) (k : String) : Except Exc α :=
  match o with
  | some v => .ok v
  | none => .error (.keyError ("'" ++ k ++ "'"))

/-- Python truthiness of a possibly-absent string value: `None` and the empty
string are falsy. -/
def pyTruthyStr : Option String → Bool
  | none => false
  | some s => s ≠ ""

/-- Python `a or b` over possibly-absent strings: `a` when truthy, else `b`. -/
def pyOrStr (a b : Option String) : Option String :=
  match a with
  | some s => if s = "" then b else some s
  | none => b

/-- f-string interpolation of a possibly-`None` value: `None` renders as the
literal text `None`. -/
def pyShowOpt : Option String → String
  | none => "None"
  | some s => s

/-- Python slice `l[-n:]`: the last `min n (length l)` elements. -/
def pyLastSlice {α : Type} (n : Nat) (l : List α) : List α :=
  (l.reverse.take n).reverse

/-- The success dict built by a lookup function. `name` is always set by every
lookup; keys a given registry does not produce stay `none` (the formatter only
reads them through `.get`, for which a missing key and a `None` value agree).
`latest_version` is always a present key but its value can be `None`;
`recent_versions` entries can be `None` only through the Go fallback. -/
structure PkgResult where
  name : String
  latest_version : Option String := none
  summary : Option String := none
  description : Option String := none
  recent_versions : List (Option String) := []
  dist_tags : Option (List (String × String)) := none
  requires_python : Option String := none
  homepage : Option String := none
  repository : Option String := none
  timestamp : Option String := none
deriving DecidableEq, Repr

/-- A lookup's return value: either `{"error": msg}` or the success dict. -/
inductive LookupResult where
  | err (msg : String)
  | ok (r : PkgResult)
deriving DecidableEq, Repr

/-! ## PyPI lookup -/

/-- One release-file record of the PyPI JSON (`releases[v][i]`). -/
structure PypiFile where
  upload_time : String
deriving DecidableEq, Repr

/-- The `info` object of the PyPI JSON. -/
structure PypiInfo where
  name : Option String := none
  version : Option String := none
  summary : Option String := none
  home_page : Option String := none
  project_url : Option String := none
  requires_python : Option String := none
deriving DecidableEq, Repr

/-- The top-level PyPI JSON body; `releases` maps each version string to its
list of release-file records, in the order the registry returned the keys. -/
structure PypiBody where
  info : Option PypiInfo := none
  releases : Option (List (String × List PypiFile)) := none
deriving DecidableEq, Repr

/-- `get_upload_time` from `lookup_pypi`:
`data["releases"][v][0]["upload_time"] if data["releases"][v] else ""`. -/
def get_upload_time (releases : List (String × List PypiFile)) (v : String) : String :=
  match releases.lookup v with
  | some (f :: _) => f.upload_time
  | _ => ""

/-- The comparison of `sorted(releases, key=get_upload_time, reverse=True)`:
`a` sorts no later than `b` when `b`'s upload time is at most `a`'s, comparing
the strings lexicographically by code point (the order on `String.data`). -/
def uploadDescRel (releases : List (String × List PypiFile)) :
    String → String → Prop :=
  fun a b => (get_upload_time releases b).data ≤ (get_upload_time releases a).data

instance uploadDescRelDec (releases : List (String × List PypiFile)) :
    DecidableRel (uploadDescRel releases) := fun a b =>
  inferInstanceAs
    (Decidable ((get_upload_time releases b).data ≤ (get_upload_time releases a).data))

/-- `lookup_pypi`, over the response of
`GET https://pypi.org/pypi/{package_name}/json`. -/
def lookup_pypi (package_name : String) (resp : HttpResult PypiBody) :
    Except Exc LookupResult := do
  let response ← getResp resp
  if response.status = 404 then
    pure (.err ("Package '" ++ package_name ++ "' not found on PyPI"))
  else do
    raise_for_status response
    let data := response.body
    let info ← pyKey data.info "info"
    let releasesDict ← pyKey data.releases "releases"
    let releases := releasesDict.map Prod.fst
    let releases_sorted := List.insertionSort (uploadDescRel releasesDict) releases
    let nm ← pyKey info.name "name"
    let ver ← pyKey info.version "version"
    pure (.ok {
      name := nm
      latest_version := some ver
      summary := some (info.summary.getD "")
      recent_versions := (releases_sorted.take 10).map some
      homepage := pyOrStr info.home_page info.project_url
      requires_python := info.requires_python })

/-! ## npm lookup -/

/-- The npm registry JSON body; `versions` is the ordered key list of the
`versions` mapping (only the keys are read), `dist_tags` the `dist-tags`
mapping in iteration order. -/
structure NpmBody where
  name : Option String := none
  description : Option String := none
  dist_tags : Option (List (String × String)) := none
  versions : Option (List String) := none
  homepage : Option String := none
deriving DecidableEq, Repr

/-- `lookup_npm`, over the response of
`GET https://registry.npmjs.org/{package_name}`. -/
def lookup_npm (package_name : String) (resp : HttpResult NpmBody) :
    Except Exc LookupResult := do
  let response ← getResp resp
  if response.status = 404 then
    pure (.err ("Package '" ++ package_name ++ "' not found on npm"))
  else do
    raise_for_status response
    let data := response.body
    let dist_tags := data.dist_tags.getD []
    let versions := data.versions.getD []
    let nm ← pyKey data.name "name"
    pure (.ok {
      name := nm
      latest_version := dist_tags.lookup "latest"
      description := some (data.description.getD "")
      dist_tags := some dist_tags
      recent_versions := ((pyLastSlice 10 versions).reverse).map some
      homepage := data.homepage })

/-! ## crates.io lookup -/

/-- The `crate` object of the crates.io JSON. -/
structure CrateInfo where
  name : Option String := none
  max_version : Option String := none
  description : Option String := none
  homepage : Option String := none
  repository : Option String := none
deriving DecidableEq, Repr

/-- One element of the `versions` array of the crates.io JSON. -/
structure CrateVersion where
  num : String
deriving DecidableEq, Repr

/-- The top-level crates.io JSON body. -/
structure CratesBody where
  crate : Option CrateInfo := none
  versions : Option (List CrateVersion) := none
deriving DecidableEq, Repr

/-- `lookup_crates`, over the response of
`GET https://crates.io/api/v1/crates/{package_name}`. -/
def lookup_crates (package_name : String) (resp : HttpResult CratesBody) :
    Except Exc LookupResult := do
  let response ← getResp resp
  if response.status = 404 then
    pure (.err ("Package '" ++ package_name ++ "' not found on crates.io"))
  else do
    raise_for_status response
    let data := response.body
    let crate ← pyKey data.crate "crate"
    let versions := (data.versions.getD []).map CrateVersion.num
    let nm ← pyKey crate.name "name"
    pure (.ok {
      name := nm
      latest_version := crate.max_version
      description := some (crate.description.getD "")
      recent_versions := (versions.take 10).map some
      homepage := crate.homepage
      repository := crate.repository })

/-! ## Go module lookup -/

/-- The JSON body of `GET https://proxy.golang.org/{module_path}/@latest`. -/
structure GoLatestBody where
  Version : Option String := none
  Time : Option String := none
deriving DecidableEq, Repr

/-- Python `str.strip()`: remove whitespace from both ends. -/
def pyStrip (s : String) : String :=
  String.mk (((s.data.dropWhile Char.isWhitespace).reverse.dropWhile
    Char.isWhitespace).reverse)

/-- Split a character list at every newline, keeping empty segments, so that
`splitOnNl (s.data)` lists the segments of Python `s.split("\n")`. -/
def splitOnNl : List Char → List (List Char)
  | [] => [[]]
  | c :: cs =>
    let r := splitOnNl cs
    if c = '\n' then [] :: r
    else
      match r with
      | h :: t => (c :: h) :: t
      | [] => [[c]]

/-- Python `s.split("\n")`. -/
def pySplitNl (s : String) : List String :=
  (splitOnNl s.data).map String.mk

/-- The version list parsed from the `@v/list` response:
`versions_response.text.strip().split("\n")` with empty entries removed, or
`[]` when the status is not 200. -/
def goVersions (versions_response : HttpResp String) : List String :=
  if versions_response.status = 200 then
    (pySplitNl (pyStrip versions_response.body)).filter (fun v => v ≠ "")
  else []

/-- `lookup_go`, over the responses of
`GET https://proxy.golang.org/{module_path}/@latest` and
`GET https://proxy.golang.org/{module_path}/@v/list`. -/
def lookup_go (module_path : String) (latestResp : HttpResult GoLatestBody)
    (listResp : HttpResult String) : Except Exc LookupResult := do
  let response ← getResp latestResp
  if response.status = 404 then
    pure (.err ("Module '" ++ module_path ++ "' not found on Go proxy"))
  else do
    raise_for_status response
    let data := response.body
    let versions_response ← getResp listResp
    let versions := goVersions versions_response
    pure (.ok {
      name := module_path
      latest_version := data.Version
      recent_versions :=
        if versions ≠ [] then ((pyLastSlice 10 versions).reverse).map some
        else [data.Version]
      timestamp := data.Time })

/-! ## Tool list (`list_tools`) -/

/-- One property of an input schema (`{"type": ..., "description": ...}`). -/
structure SchemaProp where
  type : String
  description : String
deriving DecidableEq, Repr

/-- A tool's `inputSchema` object. -/
structure InputSchema where
  type : String
  properties : List (String × SchemaProp)
  required : List String
deriving DecidableEq, Repr

/-- An MCP `Tool` descriptor. -/
structure Tool where
  name : String
  description : String
  inputSchema : InputSchema
deriving DecidableEq, Repr

/-- `list_tools`: the fixed list of the four tool descriptors. -/
def list_tools : List Tool :=
  [{ name := "lookup_pypi"
     description :=
       "Look up Python package versions on PyPI. " ++
       "Use this to find the latest version and recent releases of Python packages."
     inputSchema :=
       { type := "object"
         properties :=
           [("package_name",
             { type := "string"
               description := "The Python package name (e.g., 'requests', 'django')" })]
         required := ["package_name"] } },
   { name := "lookup_npm"
     description :=
       "Look up JavaScript/Node.js package versions on npm. " ++
       "Use this to find the latest version and recent releases of npm packages."
     inputSchema :=
       { type := "object"
         properties :=
           [("package_name",
             { type := "string"
               description := "The npm package name (e.g., 'react', 'express')" })]
         required := ["package_name"] } },
   { name := "lookup_crates"
     description :=
       "Look up Rust crate versions on crates.io. " ++
       "Use this to find the latest version and recent releases of Rust crates."
     inputSchema :=
       { type := "object"
         properties :=
           [("package_name",
             { type := "string"
               description := "The Rust crate name (e.g., 'serde', 'tokio')" })]
         required := ["package_name"] } },
   { name := "lookup_go"
     description :=
       "Look up Go module versions on the Go module proxy. " ++
       "Use this to find the latest version and recent releases of Go modules."
     inputSchema :=
       { type := "object"
         properties :=
           [("module_path",
             { type := "string"
               description := "The Go module path (e.g., 'github.com/gin-gonic/gin')" })]
         required := ["module_path"] } }]

/-! ## Formatting and dispatch (`call_tool`) -/

/-- Python `", ".join(items)` over the `recent_versions` list: raises
`TypeError` when an item is `None`. -/
def pyJoin (l : List (Option String)) : Except Exc String := do
  let strs ← l.mapM (fun o =>
    match o with
    | some s => Except.ok s
    | none => Except.error (Exc.typeError "sequence item: expected str instance, NoneType found"))
  pure (String.intercalate ", " strs)

/-- The `lines` list built by `call_tool` for a success dict: the two
unconditional lines (`Package:`, `Latest Version:`) followed by one line per
truthy optional field, in source order. Only the `Recent Versions` join can
raise. -/
def formatLines (r : PkgResult) : Except Exc (List String) := do
  let recentLines ←
    if r.recent_versions ≠ [] then do
      let j ← pyJoin r.recent_versions
      pure ["Recent Versions: " ++ j]
    else pure ([] : List String)
  let tags := r.dist_tags.getD []
  pure (["Package: " ++ r.name]
    ++ ["Latest Version: " ++ pyShowOpt r.latest_version]
    ++ (if pyTruthyStr (pyOrStr r.description r.summary) then
          ["Description: " ++ pyShowOpt (pyOrStr r.description r.summary)]
        else [])
    ++ recentLines
    ++ (if tags ≠ [] then
          ["Dist Tags: " ++ String.intercalate ", " (tags.map (fun kv => kv.1 ++ "=" ++ kv.2))]
        else [])
    ++ (if pyTruthyStr r.requires_python then
          ["Requires Python: " ++ pyShowOpt r.requires_python]
        else [])
    ++ (if pyTruthyStr r.homepage then ["Homepage: " ++ pyShowOpt r.homepage] else [])
    ++ (if pyTruthyStr r.repository then ["Repository: " ++ pyShowOpt r.repository] else []))

/-- The `text` value built by `call_tool`: the error string of an error dict,
or the formatted lines joined with newlines. -/
def formatResult : LookupResult → Except Exc String
  | .err m => .ok m
  | .ok r => do
    let lines ← formatLines r
    pure (String.intercalate "\n" lines)

/-- The registry responses available to one `call_tool` invocation: one
outcome per endpoint the four lookups can hit. -/
structure Env where
  pypi : HttpResult PypiBody
  npm : HttpResult NpmBody
  crates : HttpResult CratesBody
  goLatest : HttpResult GoLatestBody
  goList : HttpResult String

/-- The body of `call_tool`'s `try` block: dispatch by tool name (reading the
required argument from the `arguments` dict, raising `KeyError` when absent),
then format the lookup result. -/
def call_tool_attempt (name : String) (arguments : List (String × String))
    (env : Env) : Except Exc String := do
  let result ←
    if name = "lookup_pypi" then do
      let pn ← pyIndexD arguments "package_name"
      lookup_pypi pn env.pypi
    else if name = "lookup_npm" then do
      let pn ← pyIndexD arguments "package_name"
      lookup_npm pn env.npm
    else if name = "lookup_crates" then do
      let pn ← pyIndexD arguments "package_name"
      lookup_crates pn env.crates
    else if name = "lookup_go" then do
      let mp ← pyIndexD arguments "module_path"
      lookup_go mp env.goLatest env.goList
    else
      pure (LookupResult.err ("Unknown tool: " ++ name))
  formatResult result

/-- `call_tool`: the `try`/`except` boundary. Returns the list of text
contents of the returned `TextContent` blocks; never raises. -/
def call_tool (name : String) (arguments : List (String × String))
    (env : Env) : List String :=
  match call_tool_attempt name arguments env with
  | .ok text => [text]
  | .error (.httpError d) => ["HTTP error looking up package: " ++ d]
  | .error e => ["Error looking up package: " ++ e.details]

/-! ## Specification-side definitions and concrete fixtures -/

/-- Number of optional fields of a result that Python's formatter finds
truthy, i.e. the number of optional lines the formatter emits. -/
def truthyCount (r : PkgResult) : Nat :=
  (if pyTruthyStr (pyOrStr r.description r.summary) then 1 else 0)
  + (if r.recent_versions ≠ [] then 1 else 0)
  + (if r.dist_tags.getD [] ≠ [] then 1 else 0)
  + (if pyTruthyStr r.requires_python then 1 else 0)
  + (if pyTruthyStr r.homepage then 1 else 0)
  + (if pyTruthyStr r.repository then 1 else 0)

/-- The releases mapping of the `flask` fixture of the test suite. -/
def flaskRels : List (String × List PypiFile) :=
  [("3.0.0", [⟨"2023-09-30T00:00:00"⟩]),
   ("2.3.3", [⟨"2023-08-21T00:00:00"⟩]),
   ("2.3.2", [⟨"2023-05-01T00:00:00"⟩])]

/-- The PyPI response for the `flask` fixture of the test suite. -/
def flaskResp : HttpResp PypiBody :=
  ⟨200,
   { info := some
       { name := some "flask"
         version := some "3.0.0"
         summary := some "A simple framework for building complex web applications."
         home_page := some "https://palletsprojects.com/p/flask"
         requires_python := some ">=3.8" }
     releases := some flaskRels }⟩

/-- The record `lookup_pypi` builds from the `flask` fixture. -/
def flaskRec : PkgResult :=
  { name := "flask"
    latest_version := some "3.0.0"
    summary := some "A simple framework for building complex web applications."
    recent_versions := [some "3.0.0", some "2.3.3", some "2.3.2"]
    homepage := some "https://palletsprojects.com/p/flask"
    requires_python := some ">=3.8" }

/-- An environment whose PyPI endpoint serves the `flask` fixture; the other
endpoints fail at the transport level. -/
def envFlask : Env :=
  { pypi := .ok flaskResp
    npm := .error "connection refused"
    crates := .error "connection refused"
    goLatest := .error "connection refused"
    goList := .error "connection refused" }

/-- An environment whose every endpoint answers 404 with an empty body. -/
def env404 : Env :=
  { pypi := .ok ⟨404, {}⟩
    npm := .ok ⟨404, {}⟩
    crates := .ok ⟨404, {}⟩
    goLatest := .ok ⟨404, {}⟩
    goList := .ok ⟨404, ""⟩ }

/-- An npm 200 response whose `dist-tags` mapping has no `latest` key, so the
lookup's `latest_version` is `None`. -/
def envNpmNoLatest : Env :=
  { pypi := .error "connection refused"
    npm := .ok ⟨200,
      { name := some "leftpad"
        dist_tags := some [("next", "2.0.0")]
        versions := some ["1.0.0"] }⟩
    crates := .error "connection refused"
    goLatest := .error "connection refused"
    goList := .error "connection refused" }

/-- The Go module fixture of the test suite: `@latest` gives `v1.9.1` and the
`@v/list` body has two lines. -/
def envGoGin : Env :=
  { pypi := .error "connection refused"
    npm := .error "connection refused"
    crates := .error "connection refused"
    goLatest := .ok ⟨200, { Version := some "v1.9.1", Time := some "2023-06-01T00:00:00Z" }⟩
    goList := .ok ⟨200, "v1.9.0\nv1.9.1\n"⟩ }

/-- A Go environment where the `@latest` call succeeds but the `@v/list` call
answers 500, exercising the fallback. -/
def envGoListFails : Env :=
  { pypi := .error "connection refused"
    npm := .error "connection refused"
    crates := .error "connection refused"
    goLatest := .ok ⟨200, { Version := some "v2.0.0", Time := some "2024-01-01T00:00:00Z" }⟩
    goList := .ok ⟨500, "Internal Server Error"⟩ }

/-- The record `lookup_npm` builds from the `leftpad` response of
`envNpmNoLatest`: its `dist-tags` mapping has no `latest` entry, so
`latest_version` is `None`. -/
def npmLeftpadRec : PkgResult :=
  { name := "leftpad"
    latest_version := none
    description := some ""
    dist_tags := some [("next", "2.0.0")]
    recent_versions := [some "1.0.0"] }

/-- The record `lookup_go` builds from the `gin` fixture of `envGoGin`. -/
def goGinRec : PkgResult :=
  { name := "github.com/gin-gonic/gin"
    latest_version := some "v1.9.1"
    recent_versions := [some "v1.9.1", some "v1.9.0"]
    timestamp := some "2023-06-01T00:00:00Z" }

/-- The record `lookup_go` builds under `envGoListFails`: the list call
answered 500, so `recent_versions` falls back to the latest version alone. -/
def goFailRec : PkgResult :=
  { name := "example.com/mod"
    latest_version := some "v2.0.0"
    recent_versions := [some "v2.0.0"]
    timestamp := some "2024-01-01T00:00:00Z" }

/-- The crates.io `serde` fixture of the test suite. -/
def envCratesSerde : Env :=
  { pypi := .error "connection refused"
    npm := .error "connection refused"
    crates := .ok ⟨200,
      { crate := some
          { name := some "serde"
            max_version := some "1.0.193"
            description := some "A generic serialization/deserialization framework"
            homepage := some "https://serde.rs"
            repository := some "https://github.com/serde-rs/serde" }
        versions := some [⟨"1.0.193"⟩, ⟨"1.0.192"⟩, ⟨"1.0.191"⟩] }⟩
    goLatest := .error "connection refused"
    goList := .error "connection refused" }

/-- The record `lookup_crates` builds from the `serde` fixture. -/
def serdeRec : PkgResult :=
  { name := "serde"
    latest_version := some "1.0.193"
    description := some "A generic serialization/deserialization framework"
    recent_versions := [some "1.0.193", some "1.0.192", some "1.0.191"]
    homepage := some "https://serde.rs"
    repository := some "https://github.com/serde-rs/serde" }

/-- A crates.io 200 response whose body lacks the `crate` key. -/
def envCratesMalformed : Env :=
  { pypi := .error "connection refused"
    npm := .error "connection refused"
    crates := .ok ⟨200, { versions := some [⟨"1.0.0"⟩] }⟩
    goLatest := .error "connection refused"
    goList := .error "connection refused" }

/-! ## Helper lemmas -/

theorem exc_bind_ok {α β : Type} (a : α) (f : α → Except Exc β) :
    (Except.ok a : Except Exc α) >>= f = f a := rfl

theorem exc_bind_error {α β : Type} (e : Exc) (f : α → Except Exc β) :
    (Except.error e : Except Exc α) >>= f = Except.error e := rfl

theorem exc_pure {α : Type} (a : α) : (pure a : Except Exc α) = Except.ok a := rfl

/-- The Python slice `l[-n:]` is exactly `List.rtake`, the last `n`
elements. -/
theorem pyLastSlice_eq_rtake {α : Type} (n : Nat) (l : List α) :
    pyLastSlice n l = l.rtake n :=
  (List.rtake_eq_reverse_take_reverse l n).symm

/-- Success-shape inversion for `lookup_pypi`: a success result determines the
response shape and every field of the returned record. -/
theorem lookup_pypi_ok_elim {p : String} {hr : HttpResult PypiBody} {r : PkgResult}
    (h : lookup_pypi p hr = .ok (.ok r)) :
    ∃ (resp : HttpResp PypiBody) (info : PypiInfo)
      (rels : List (String × List PypiFile)) (nm ver : String),
      hr = .ok resp ∧ resp.body.info = some info ∧ resp.body.releases = some rels ∧
      info.name = some nm ∧ info.version = some ver ∧
      r = { name := nm
            latest_version := some ver
            summary := some (info.summary.getD "")
            recent_versions :=
              ((List.insertionSort (uploadDescRel rels) (rels.map Prod.fst)).take 10).map some
            homepage := pyOrStr info.home_page info.project_url
            requires_python := info.requires_python } := by
  cases hr with
  | error m =>
    simp only [lookup_pypi, getResp, exc_bind_error] at h
    simp at h
  | ok resp =>
    simp only [lookup_pypi, getResp, exc_bind_ok] at h
    split at h
    · simp only [exc_pure, Except.ok.injEq] at h
      exact absurd h (by simp)
    · simp only [raise_for_status] at h
      split at h
      · simp only [exc_bind_ok] at h
        rcases hI : resp.body.info with _ | info
        · simp only [pyKey, hI, exc_bind_error] at h
          simp at h
        · simp only [pyKey, hI, exc_bind_ok] at h
          rcases hR : resp.body.releases with _ | rels
          · simp only [pyKey, hR, exc_bind_error] at h
            simp at h
          · simp only [pyKey, hR, exc_bind_ok] at h
            rcases hN : info.name with _ | nm
            · simp only [pyKey, hN, exc_bind_error] at h
              simp at h
            · simp only [pyKey, hN, exc_bind_ok] at h
              rcases hV : info.version with _ | ver
              · simp only [pyKey, hV, exc_bind_error] at h
                simp at h
              · simp only [pyKey, hV, exc_bind_ok, exc_pure, Except.ok.injEq,
                  LookupResult.ok.injEq] at h
                exact ⟨resp, info, rels, nm, ver, rfl, hI, hR, hN, hV, h.symm⟩
      · simp only [exc_bind_error] at h
        simp at h

/-- Success-shape inversion for `lookup_npm`. -/
theorem lookup_npm_ok_elim {p : String} {hr : HttpResult NpmBody} {r : PkgResult}
    (h : lookup_npm p hr = .ok (.ok r)) :
    ∃ (resp : HttpResp NpmBody) (nm : String),
      hr = .ok resp ∧ resp.body.name = some nm ∧
      r = { name := nm
            latest_version := (resp.body.dist_tags.getD []).lookup "latest"
            description := some (resp.body.description.getD "")
            dist_tags := some (resp.body.dist_tags.getD [])
            recent_versions := ((pyLastSlice 10 (resp.body.versions.getD [])).reverse).map some
            homepage := resp.body.homepage } := by
  cases hr with
  | error m =>
    simp only [lookup_npm, getResp, exc_bind_error] at h
    simp at h
  | ok resp =>
    simp only [lookup_npm, getResp, exc_bind_ok] at h
    split at h
    · simp only [exc_pure, Except.ok.injEq] at h
      exact absurd h (by simp)
    · simp only [raise_for_status] at h
      split at h
      · simp only [exc_bind_ok] at h
        rcases hN : resp.body.name with _ | nm
        · simp only [pyKey, hN, exc_bind_error] at h
          simp at h
        · simp only [pyKey, hN, exc_bind_ok, exc_pure, Except.ok.injEq,
            LookupResult.ok.injEq] at h
          exact ⟨resp, nm, rfl, hN, h.symm⟩
      · simp only [exc_bind_error] at h
        simp at h

/-- Success-shape inversion for `lookup_crates`. -/
theorem lookup_crates_ok_elim {p : String} {hr : HttpResult CratesBody} {r : PkgResult}
    (h : lookup_crates p hr = .ok (.ok r)) :
    ∃ (resp : HttpResp CratesBody) (crate : CrateInfo) (nm : String),
      hr = .ok resp ∧ resp.body.crate = some crate ∧ crate.name = some nm ∧
      r = { name := nm
            latest_version := crate.max_version
            description := some (crate.description.getD "")
            recent_versions :=
              (((resp.body.versions.getD []).map CrateVersion.num).take 10).map some
            homepage := crate.homepage
            repository := crate.repository } := by
  cases hr with
  | error m =>
    simp only [lookup_crates, getResp, exc_bind_error] at h
    simp at h
  | ok resp =>
    simp only [lookup_crates, getResp, exc_bind_ok] at h
    split at h
    · simp only [exc_pure, Except.ok.injEq] at h
      exact absurd h (by simp)
    · simp only [raise_for_status] at h
      split at h
      · simp only [exc_bind_ok] at h
        rcases hC : resp.body.crate with _ | crate
        · simp only [pyKey, hC, exc_bind_error] at h
          simp at h
        · simp only [pyKey, hC, exc_bind_ok] at h
          rcases hN : crate.name with _ | nm
          · simp only [pyKey, hN, exc_bind_error] at h
            simp at h
          · simp only [pyKey, hN, exc_bind_ok, exc_pure, Except.ok.injEq,
              LookupResult.ok.injEq] at h
            exact ⟨resp, crate, nm, rfl, hC, hN, h.symm⟩
      · simp only [exc_bind_error] at h
        simp at h

/-- Success-shape inversion for `lookup_go`. -/
theorem lookup_go_ok_elim {mp : String} {hrL : HttpResult GoLatestBody}
    {hrV : HttpResult String} {r : PkgResult}
    (h : lookup_go mp hrL hrV = .ok (.ok r)) :
    ∃ (respL : HttpResp GoLatestBody) (respV : HttpResp String),
      hrL = .ok respL ∧ hrV = .ok respV ∧
      r = { name := mp
            latest_version := respL.body.Version
            recent_versions :=
              if goVersions respV ≠ [] then
                ((pyLastSlice 10 (goVersions respV)).reverse).map some
              else [respL.body.Version]
            timestamp := respL.body.Time } := by
  cases hrL with
  | error m =>
    simp only [lookup_go, getResp, exc_bind_error] at h
    simp at h
  | ok respL =>
    simp only [lookup_go, getResp, exc_bind_ok] at h
    split at h
    · simp only [exc_pure, Except.ok.injEq] at h
      exact absurd h (by simp)
    · simp only [raise_for_status] at h
      split at h
      · simp only [exc_bind_ok] at h
        cases hrV with
        | error m2 =>
          simp only [getResp, exc_bind_error] at h
          simp at h
        | ok respV =>
          simp only [getResp, exc_bind_ok, exc_pure, Except.ok.injEq,
            LookupResult.ok.injEq] at h
          exact ⟨respL, respV, rfl, rfl, h.symm⟩
      · simp only [exc_bind_error] at h
        simp at h

/-! ## Claim theorems -/

/-- C3: on a 404 from the primary endpoint, each of the four lookup functions
returns (without raising) an ErrorResult whose single `error` field is the
fixed not-found template naming the registry and the requested identifier. -/
theorem lookups_404_not_found_template :
    (∀ (p : String) (resp : HttpResp PypiBody), resp.status = 404 →
      lookup_pypi p (.ok resp) =
        .ok (.err ("Package '" ++ p ++ "' not found on PyPI"))) ∧
    (∀ (p : String) (resp : HttpResp NpmBody), resp.status = 404 →
      lookup_npm p (.ok resp) =
        .ok (.err ("Package '" ++ p ++ "' not found on npm"))) ∧
    (∀ (p : String) (resp : HttpResp CratesBody), resp.status = 404 →
      lookup_crates p (.ok resp) =
        .ok (.err ("Package '" ++ p ++ "' not found on crates.io"))) ∧
    (∀ (mp : String) (resp : HttpResp GoLatestBody) (lr : HttpResult String),
      resp.status = 404 →
      lookup_go mp (.ok resp) lr =
        .ok (.err ("Module '" ++ mp ++ "' not found on Go proxy"))) := by
  refine ⟨fun p resp h => ?_, fun p resp h => ?_, fun p resp h => ?_,
    fun mp resp lr h => ?_⟩
  · simp [lookup_pypi, getResp, exc_bind_ok, exc_pure, h]
  · simp [lookup_npm, getResp, exc_bind_ok, exc_pure, h]
  · simp [lookup_crates, getResp, exc_bind_ok, exc_pure, h]
  · simp [lookup_go, getResp, exc_bind_ok, exc_pure, h]

/-- Witness for C3: the four not-found templates at concrete 404 responses. -/
theorem lookups_404_not_found_template_witness :
    lookup_pypi "nonexistent-package-xyz" env404.pypi =
      .ok (.err "Package 'nonexistent-package-xyz' not found on PyPI") ∧
    lookup_npm "nonexistent-package-xyz" env404.npm =
      .ok (.err "Package 'nonexistent-package-xyz' not found on npm") ∧
    lookup_crates "nonexistent-crate-xyz" env404.crates =
      .ok (.err "Package 'nonexistent-crate-xyz' not found on crates.io") ∧
    lookup_go "github.com/nonexistent/module" env404.goLatest env404.goList =
      .ok (.err "Module 'github.com/nonexistent/module' not found on Go proxy") :=
  ⟨lookups_404_not_found_template.1 "nonexistent-package-xyz" ⟨404, {}⟩ rfl,
   lookups_404_not_found_template.2.1 "nonexistent-package-xyz" ⟨404, {}⟩ rfl,
   lookups_404_not_found_template.2.2.1 "nonexistent-crate-xyz" ⟨404, {}⟩ rfl,
   lookups_404_not_found_template.2.2.2 "github.com/nonexistent/module" ⟨404, {}⟩
     env404.goList rfl⟩

/-- C8: tool discovery returns exactly four descriptors, in the fixed order
pypi, npm, crates, go, each requiring exactly one named string parameter:
`package_name` for the first three and `module_path` for `lookup_go`. -/
theorem list_tools_descriptors :
    list_tools.map (fun t =>
      (t.name, t.inputSchema.type, t.inputSchema.required,
        t.inputSchema.properties.map (fun kv => (kv.1, kv.2.type)))) =
      [("lookup_pypi", "object", ["package_name"], [("package_name", "string")]),
       ("lookup_npm", "object", ["package_name"], [("package_name", "string")]),
       ("lookup_crates", "object", ["package_name"], [("package_name", "string")]),
       ("lookup_go", "object", ["module_path"], [("module_path", "string")])] := rfl

/-- C9: a tool name matching none of the four yields exactly the text
`Unknown tool: {name}`, and the answer does not depend on the registry
responses at all — no lookup is consulted. -/
theorem call_tool_unknown_tool (n : String) (args : List (String × String))
    (env env2 : Env)
    (h1 : n ≠ "lookup_pypi") (h2 : n ≠ "lookup_npm") (h3 : n ≠ "lookup_crates")
    (h4 : n ≠ "lookup_go") :
    call_tool n args env = ["Unknown tool: " ++ n] ∧
    call_tool n args env = call_tool n args env2 := by
  have key : ∀ e : Env, call_tool_attempt n args e = .ok ("Unknown tool: " ++ n) := by
    intro e
    simp [call_tool_attempt, h1, h2, h3, h4, formatResult, exc_pure, exc_bind_ok]
  exact ⟨by simp [call_tool, key env], by simp [call_tool, key env, key env2]⟩

/-- Witness for C9: `unknown_tool` over two unrelated environments. -/
theorem call_tool_unknown_tool_witness :
    call_tool "unknown_tool" [] envFlask = ["Unknown tool: unknown_tool"] ∧
    call_tool "unknown_tool" [] envFlask = call_tool "unknown_tool" [] env404 := by
  have h := call_tool_unknown_tool "unknown_tool" [] envFlask env404
    (by decide) (by decide) (by decide) (by decide)
  exact ⟨h.1, h.2⟩

/-- C2: `call_tool` never raises and always produces exactly one text block;
an `httpx` error raised during dispatch renders as
`HTTP error looking up package: {details}`, any other exception (for example
the `KeyError` of a missing `package_name` argument) renders as
`Error looking up package: {details}`. -/
theorem call_tool_never_raises :
    (∀ (n : String) (args : List (String × String)) (env : Env),
      ∃ t, call_tool n args env = [t]) ∧
    (∀ (n : String) (args : List (String × String)) (env : Env) (d : String),
      call_tool_attempt n args env = .error (.httpError d) →
      call_tool n args env = ["HTTP error looking up package: " ++ d]) ∧
    (∀ (n : String) (args : List (String × String)) (env : Env) (e : Exc),
      call_tool_attempt n args env = .error e →
      (∀ d, e ≠ Exc.httpError d) →
      call_tool n args env = ["Error looking up package: " ++ e.details]) ∧
    (∀ (args : List (String × String)) (env : Env),
      args.lookup "package_name" = none →
      call_tool "lookup_pypi" args env =
        ["Error looking up package: " ++ "'package_name'"]) := by
  refine ⟨fun n args env => ?_, fun n args env d h => ?_,
    fun n args env e h hne => ?_, fun args env h => ?_⟩
  · rcases hA : call_tool_attempt n args env with e | t
    · cases e with
      | httpError d =>
        exact ⟨"HTTP error looking up package: " ++ d, by simp [call_tool, hA]⟩
      | keyError d =>
        exact ⟨"Error looking up package: " ++ d, by simp [call_tool, hA, Exc.details]⟩
      | typeError d =>
        exact ⟨"Error looking up package: " ++ d, by simp [call_tool, hA, Exc.details]⟩
    · exact ⟨t, by simp [call_tool, hA]⟩
  · simp [call_tool, h]
  · cases e with
    | httpError d => exact absurd rfl (hne d)
    | keyError d => simp [call_tool, h, Exc.details]
    | typeError d => simp [call_tool, h, Exc.details]
  · have hA : call_tool_attempt "lookup_pypi" args env =
        .error (.keyError "'package_name'") := by
      simp [call_tool_attempt, pyIndexD, h, exc_bind_error]
    simp [call_tool, hA, Exc.details]

/-- C4: on a 200 PyPI response, `recent_versions` is the key list of the
`releases` mapping sorted descending by the upload time of each version's
first release file (empty-string key for a version with no files), compared
lexicographically as strings, truncated to the first 10 after sorting. -/
theorem pypi_recent_versions_sorted :
    ∀ (p : String) (resp : HttpResp PypiBody) (r : PkgResult)
      (rels : List (String × List PypiFile)),
      resp.status = 200 →
      resp.body.releases = some rels →
      lookup_pypi p (.ok resp) = .ok (.ok r) →
      ∃ s : List String,
        s.Perm (rels.map Prod.fst) ∧
        List.Sorted (uploadDescRel rels) s ∧
        r.recent_versions = (s.take 10).map some := by
  intro p resp r rels _ hrels h
  obtain ⟨resp2, info, rels2, nm, ver, heR, hI, hR, hN, hV, hr⟩ := lookup_pypi_ok_elim h
  injection heR with heR
  subst heR
  rw [hrels] at hR
  injection hR with hR
  subst hR
  subst hr
  refine ⟨List.insertionSort (uploadDescRel rels) (rels.map Prod.fst), ?_, ?_, ?_⟩
  · exact List.perm_insertionSort _ _
  · haveI : IsTotal String (uploadDescRel rels) :=
      ⟨fun a b => le_total (get_upload_time rels b).data (get_upload_time rels a).data⟩
    haveI : IsTrans String (uploadDescRel rels) :=
      ⟨fun a b c hab hbc => le_trans hbc hab⟩
    exact List.sorted_insertionSort _ _
  · simp

/-- Witness for C4: the `flask` fixture, whose three releases sort newest
first by upload time. -/
theorem pypi_recent_versions_sorted_witness :
    ∃ s : List String,
      s.Perm (flaskRels.map Prod.fst) ∧
      List.Sorted (uploadDescRel flaskRels) s ∧
      flaskRec.recent_versions = (s.take 10).map some :=
  pypi_recent_versions_sorted "flask" flaskResp flaskRec flaskRels rfl rfl rfl

/-- C5: when the `@latest` call succeeds, the list call's outcome is
non-fatal: the lookup still succeeds; a 200 list with at least one non-blank
line makes `recent_versions` the last 10 parsed lines newest-first, while a
non-200 list status or a blank body falls back to the one-element list of the
latest version, so `recent_versions` is never empty. -/
theorem go_recent_versions_list_fallback :
    (∀ (mp : String) (respL : HttpResp GoLatestBody) (respV : HttpResp String),
      200 ≤ respL.status → respL.status < 300 →
      ∃ r, lookup_go mp (.ok respL) (.ok respV) = .ok (.ok r)) ∧
    (∀ (mp : String) (respL : HttpResp GoLatestBody) (respV : HttpResp String)
      (r : PkgResult),
      lookup_go mp (.ok respL) (.ok respV) = .ok (.ok r) →
      (respV.status = 200 → goVersions respV ≠ [] →
        r.recent_versions = (((goVersions respV).rtake 10).reverse).map some) ∧
      ((respV.status ≠ 200 ∨ goVersions respV = []) →
        r.recent_versions = [r.latest_version]) ∧
      r.recent_versions ≠ []) := by
  constructor
  · intro mp respL respV h1 h2
    have h404 : ¬ respL.status = 404 := by omega
    refine ⟨{ name := mp
              latest_version := respL.body.Version
              recent_versions :=
                if goVersions respV ≠ [] then
                  ((pyLastSlice 10 (goVersions respV)).reverse).map some
                else [respL.body.Version]
              timestamp := respL.body.Time }, ?_⟩
    simp [lookup_go, getResp, exc_bind_ok, exc_pure, raise_for_status, h404, h1, h2]
  · intro mp respL respV r h
    obtain ⟨respL2, respV2, heL, heV, hr⟩ := lookup_go_ok_elim h
    injection heL with heL
    injection heV with heV
    subst heL
    subst heV
    subst hr
    refine ⟨?_, ?_, ?_⟩
    · intro _ hne
      simp [hne, pyLastSlice_eq_rtake]
    · intro hcase
      have hnil : goVersions respV = [] := by
        rcases hcase with hst | hnil
        · simp [goVersions, hst]
        · exact hnil
      simp [hnil]
    · by_cases hnil : goVersions respV = []
      · simp [hnil]
      · simp only [hnil, ne_eq, not_false_eq_true, if_true, ite_not]
        simp [pyLastSlice, hnil]

/-- Witness for C5: the `gin` fixture (list succeeds) and a 500 list response
(fallback to the latest version). -/
theorem go_recent_versions_list_fallback_witness :
    (∃ r, lookup_go "github.com/gin-gonic/gin" envGoGin.goLatest envGoGin.goList =
      .ok (.ok r)) ∧
    goGinRec.recent_versions =
      (((goVersions ⟨200, "v1.9.0\nv1.9.1\n"⟩).rtake 10).reverse).map some ∧
    goFailRec.recent_versions = [goFailRec.latest_version] ∧
    goFailRec.recent_versions ≠ [] := by
  refine ⟨?_, ?_, ?_, ?_⟩
  · exact go_recent_versions_list_fallback.1 "github.com/gin-gonic/gin"
      ⟨200, { Version := some "v1.9.1", Time := some "2023-06-01T00:00:00Z" }⟩
      ⟨200, "v1.9.0\nv1.9.1\n"⟩ (by decide) (by decide)
  · exact (go_recent_versions_list_fallback.2 "github.com/gin-gonic/gin"
      ⟨200, { Version := some "v1.9.1", Time := some "2023-06-01T00:00:00Z" }⟩
      ⟨200, "v1.9.0\nv1.9.1\n"⟩ goGinRec rfl).1 rfl (by decide)
  · exact (go_recent_versions_list_fallback.2 "example.com/mod"
      ⟨200, { Version := some "v2.0.0", Time := some "2024-01-01T00:00:00Z" }⟩
      ⟨500, "Internal Server Error"⟩ goFailRec rfl).2.1 (Or.inl (by decide))
  · exact (go_recent_versions_list_fallback.2 "example.com/mod"
      ⟨200, { Version := some "v2.0.0", Time := some "2024-01-01T00:00:00Z" }⟩
      ⟨500, "Internal Server Error"⟩ goFailRec rfl).2.2

/-- C6: on a 200 npm response, `recent_versions` is the last 10 keys of the
`versions` mapping in registry order, reversed to newest-first; no independent
sort key is applied. -/
theorem npm_recent_versions_last_ten :
    ∀ (p : String) (resp : HttpResp NpmBody) (r : PkgResult),
      resp.status = 200 →
      lookup_npm p (.ok resp) = .ok (.ok r) →
      r.recent_versions =
        (((resp.body.versions.getD []).rtake 10).reverse).map some := by
  intro p resp r _ h
  obtain ⟨resp2, nm, he, hN, hr⟩ := lookup_npm_ok_elim h
  injection he with he
  subst he
  subst hr
  simp [pyLastSlice_eq_rtake]

/-- Witness for C6: the `leftpad` response of `envNpmNoLatest`. -/
theorem npm_recent_versions_last_ten_witness :
    npmLeftpadRec.recent_versions =
      ((((⟨200,
          { name := some "leftpad"
            dist_tags := some [("next", "2.0.0")]
            versions := some ["1.0.0"] }⟩ : HttpResp NpmBody)).body.versions.getD
        []).rtake 10).reverse.map some :=
  npm_recent_versions_last_ten "leftpad"
    ⟨200,
      { name := some "leftpad"
        dist_tags := some [("next", "2.0.0")]
        versions := some ["1.0.0"] }⟩ npmLeftpadRec rfl rfl

/-- C7: every successful lookup result of any of the four lookup functions
has at most 10 entries in `recent_versions`. -/
theorem recent_versions_at_most_ten :
    (∀ (p : String) (hr : HttpResult PypiBody) (r : PkgResult),
      lookup_pypi p hr = .ok (.ok r) → r.recent_versions.length ≤ 10) ∧
    (∀ (p : String) (hr : HttpResult NpmBody) (r : PkgResult),
      lookup_npm p hr = .ok (.ok r) → r.recent_versions.length ≤ 10) ∧
    (∀ (p : String) (hr : HttpResult CratesBody) (r : PkgResult),
      lookup_crates p hr = .ok (.ok r) → r.recent_versions.length ≤ 10) ∧
    (∀ (mp : String) (hrL : HttpResult GoLatestBody) (hrV : HttpResult String)
      (r : PkgResult),
      lookup_go mp hrL hrV = .ok (.ok r) → r.recent_versions.length ≤ 10) := by
  refine ⟨fun p hr r h => ?_, fun p hr r h => ?_, fun p hr r h => ?_,
    fun mp hrL hrV r h => ?_⟩
  · obtain ⟨resp, info, rels, nm, ver, _, _, _, _, _, hrec⟩ := lookup_pypi_ok_elim h
    subst hrec
    simp [List.length_take]
  · obtain ⟨resp, nm, _, _, hrec⟩ := lookup_npm_ok_elim h
    subst hrec
    simp [pyLastSlice, List.length_take]
  · obtain ⟨resp, crate, nm, _, _, _, hrec⟩ := lookup_crates_ok_elim h
    subst hrec
    simp [List.length_take]
  · obtain ⟨respL, respV, _, _, hrec⟩ := lookup_go_ok_elim h
    subst hrec
    by_cases hnil : goVersions respV = []
    · simp [hnil]
    · simp [hnil, pyLastSlice, List.length_take]

/-- Witness for C7: concrete successful lookups of all four registries. -/
theorem recent_versions_at_most_ten_witness :
    flaskRec.recent_versions.length ≤ 10 ∧
    npmLeftpadRec.recent_versions.length ≤ 10 ∧
    serdeRec.recent_versions.length ≤ 10 ∧
    goGinRec.recent_versions.length ≤ 10 :=
  ⟨recent_versions_at_most_ten.1 "flask" envFlask.pypi flaskRec rfl,
   recent_versions_at_most_ten.2.1 "leftpad" envNpmNoLatest.npm npmLeftpadRec rfl,
   recent_versions_at_most_ten.2.2.1 "serde" envCratesSerde.crates serdeRec rfl,
   recent_versions_at_most_ten.2.2.2 "github.com/gin-gonic/gin" envGoGin.goLatest
     envGoGin.goList goGinRec rfl⟩

/-- Witness for C2: a transport failure renders as the HTTP error text, a
missing `package_name` argument as the generic error text, and a plain call
returns one block. -/
theorem call_tool_never_raises_witness :
    (∃ t, call_tool "lookup_pypi" [("package_name", "flask")] envFlask = [t]) ∧
    call_tool "lookup_npm" [("package_name", "x")] envFlask =
      ["HTTP error looking up package: connection refused"] ∧
    call_tool "lookup_pypi" [] envFlask =
      ["Error looking up package: " ++ "'package_name'"] :=
  ⟨call_tool_never_raises.1 "lookup_pypi" [("package_name", "flask")] envFlask,
   call_tool_never_raises.2.1 "lookup_npm" [("package_name", "x")] envFlask
     "connection refused" rfl,
   call_tool_never_raises.2.2.2 [] envFlask rfl⟩

/-- C10: a 200 response whose body lacks a structurally required key makes
the lookup raise a `KeyError` (never return an ErrorResult), and the failure
surfaces only at the `call_tool` boundary as the generic
`Error looking up package: {details}` text. -/
theorem malformed_success_body_raises :
    (∀ (p : String) (resp : HttpResp PypiBody),
      resp.status = 200 → resp.body.info = none →
      lookup_pypi p (.ok resp) = .error (.keyError "'info'")) ∧
    (∀ (p : String) (resp : HttpResp PypiBody) (info : PypiInfo),
      resp.status = 200 → resp.body.info = some info → resp.body.releases = none →
      lookup_pypi p (.ok resp) = .error (.keyError "'releases'")) ∧
    (∀ (p : String) (resp : HttpResp NpmBody),
      resp.status = 200 → resp.body.name = none →
      lookup_npm p (.ok resp) = .error (.keyError "'name'")) ∧
    (∀ (p : String) (resp : HttpResp CratesBody),
      resp.status = 200 → resp.body.crate = none →
      lookup_crates p (.ok resp) = .error (.keyError "'crate'")) ∧
    (∀ (n : String) (args : List (String × String)) (env : Env) (d : String),
      call_tool_attempt n args env = .error (.keyError d) →
      call_tool n args env = ["Error looking up package: " ++ d]) := by
  refine ⟨fun p resp hst hI => ?_, fun p resp info hst hI hR => ?_,
    fun p resp hst hN => ?_, fun p resp hst hC => ?_, fun n args env d h => ?_⟩
  · have h404 : ¬ resp.status = 404 := by omega
    have h2xx : 200 ≤ resp.status ∧ resp.status < 300 := by omega
    simp [lookup_pypi, getResp, exc_bind_ok, exc_bind_error, raise_for_status,
      h404, h2xx, pyKey, hI]
  · have h404 : ¬ resp.status = 404 := by omega
    have h2xx : 200 ≤ resp.status ∧ resp.status < 300 := by omega
    simp [lookup_pypi, getResp, exc_bind_ok, exc_bind_error, raise_for_status,
      h404, h2xx, pyKey, hI, hR]
  · have h404 : ¬ resp.status = 404 := by omega
    have h2xx : 200 ≤ resp.status ∧ resp.status < 300 := by omega
    simp [lookup_npm, getResp, exc_bind_ok, exc_bind_error, raise_for_status,
      h404, h2xx, pyKey, hN]
  · have h404 : ¬ resp.status = 404 := by omega
    have h2xx : 200 ≤ resp.status ∧ resp.status < 300 := by omega
    simp [lookup_crates, getResp, exc_bind_ok, exc_bind_error, raise_for_status,
      h404, h2xx, pyKey, hC]
  · simp [call_tool, h, Exc.details]

/-- Witness for C10: a crates.io 200 body without the `crate` key raises and
reaches the caller as the generic error text. -/
theorem malformed_success_body_raises_witness :
    lookup_crates "broken" envCratesMalformed.crates = .error (.keyError "'crate'") ∧
    call_tool "lookup_crates" [("package_name", "broken")] envCratesMalformed =
      ["Error looking up package: 'crate'"] := by
  constructor
  · exact malformed_success_body_raises.2.2.2.1 "broken"
      ⟨200, { versions := some [⟨"1.0.0"⟩] }⟩ rfl rfl
  · exact malformed_success_body_raises.2.2.2.2 "lookup_crates"
      [("package_name", "broken")] envCratesMalformed "'crate'" rfl

/-- Counterexample to C1 as stated: a successful npm lookup whose
`dist-tags` mapping has no `latest` key yields a result with an absent
`latest_version`, yet the formatted text still contains the line
`Latest Version: None` — the absent field is rendered as a placeholder. -/
theorem latest_version_rendered_none_cex :
    lookup_npm "leftpad" envNpmNoLatest.npm = .ok (.ok npmLeftpadRec) ∧
    npmLeftpadRec.latest_version = none ∧
    call_tool "lookup_npm" [("package_name", "leftpad")] envNpmNoLatest =
      ["Package: leftpad\nLatest Version: None\nRecent Versions: 1.0.0\nDist Tags: next=2.0.0"] :=
  ⟨rfl, rfl, rfl⟩

/-- C1 (amended): the formatter emits a line for an optional field other
than `latest_version` only when it is present and non-empty — when every
optional field is absent or empty the output is exactly the two mandatory
lines, and in general the number of lines is two plus the number of truthy
optional fields, so absent fields contribute no line — but the
`Latest Version` line is always emitted, rendering an absent
`latest_version` as the placeholder `None`. -/
theorem format_optional_fields_amended :
    (∀ r : PkgResult,
      pyTruthyStr (pyOrStr r.description r.summary) = false →
      r.recent_versions = [] →
      r.dist_tags.getD [] = [] →
      pyTruthyStr r.requires_python = false →
      pyTruthyStr r.homepage = false →
      pyTruthyStr r.repository = false →
      formatLines r = .ok ["Package: " ++ r.name,
        "Latest Version: " ++ pyShowOpt r.latest_version]) ∧
    (∀ (r : PkgResult) (ls : List String), formatLines r = .ok ls →
      ls.length = 2 + truthyCount r) := by
  constructor
  · intro r h1 h2 h3 h4 h5 h6
    simp [formatLines, h1, h2, h3, h4, h5, h6, exc_pure, exc_bind_ok]
  · intro r ls h
    by_cases hrv : r.recent_versions = []
    · simp only [formatLines, hrv, ne_eq, not_true_eq_false, if_false,
        exc_pure, exc_bind_ok, Except.ok.injEq] at h
      subst h
      simp only [truthyCount, hrv, ne_eq, not_true_eq_false, if_false]
      split_ifs <;> simp
    · rcases hj : pyJoin r.recent_versions with e | j
      · simp only [formatLines, hrv, ne_eq, not_false_eq_true, if_true, hj,
          exc_bind_error] at h
        exact absurd h (by simp)
      · simp only [formatLines, hrv, ne_eq, not_false_eq_true, if_true, hj,
          exc_pure, exc_bind_ok, Except.ok.injEq] at h
        subst h
        simp only [truthyCount, hrv, ne_eq, not_false_eq_true, if_true]
        split_ifs <;> simp

/-- Witness for the amended C1: a record with only the mandatory `name` set
formats to exactly the two mandatory lines, with `None` standing in for the
absent `latest_version`. -/
theorem format_optional_fields_amended_witness :
    formatLines { name := "x" } = .ok ["Package: x", "Latest Version: None"] :=
  format_optional_fields_amended.1 { name := "x" } rfl rfl rfl rfl rfl rfl

end VersionMcp
